import Mathlib

/-!
Verification of the contract-change propagation engine (api-core).

This file gives a shallow embedding, in Lean 4, of the pieces of the
`propagate` package that the checked claims are about:

  * `propagate/dependency_graph.py`  — service dependency graph and wave sort
  * `propagate/guardrails.py`        — protected-path guardrails
  * `propagate/differ.py`            — OpenAPI contract differ
  * `propagate/classifier.py`        — breaking-change classifier
  * `propagate/dispatcher.py`        — Devin job dispatcher
  * `propagate/devin_client.py`      — the create-session payload shape
  * `propagate/check_status.py`      — the status reconciler
  * `propagate/service_map.py`       — service map loading
  * `propagate/__main__.py`          — the snapshot-advance gate

Conventions of the embedding:

  * Python dicts that the code iterates in insertion order are modelled as
    association lists (`List (key × value)`); `dictInsert` reproduces the
    "replace value, keep first-insertion position" update of a Python dict.
  * Python `None` / missing keys are `Option`; Python string truthiness
    ("" is falsy) is made explicit where the source relies on it.
  * External I/O (the Devin HTTP API, the GitHub REST API, the database)
    is modelled as explicit "world" records holding the responses the code
    would receive; the control flow around those calls is translated from
    the source.
  * The recursion of the differ into nested schemas is not structurally
    terminating (a `$ref` cycle makes it diverge), so those functions take
    an explicit fuel argument counting the recursion depth still allowed;
    a result of `none` means the source function does not return at that
    stack depth (in CPython: a `RecursionError`).
-/

/-! ## Generic helpers: Python string, `sorted`, `set`, and dict semantics

String tests are computed over `String.toList` so that every definition
evaluates inside the kernel; they agree with the code-point semantics of
the corresponding Python `str` operations. -/

/-- Whether one character list is a prefix of another. -/
def listIsPref : List Char → List Char → Bool
  | [], _ => true
  | _ :: _, [] => false
  | x :: xs, y :: ys => x == y && listIsPref xs ys

/-- Python emptiness of a string, computed on code points. -/
def strIsEmpty (s : String) : Bool :=
  s.toList.isEmpty

/-- Python `path.startswith(pro)`, computed on code points. -/
def startsWith (pro path : String) : Bool :=
  listIsPref pro.toList path.toList

/-- Whether `needle` occurs as a contiguous run inside `hay`. -/
def listContainsSub (needle hay : List Char) : Bool :=
  match hay with
  | [] => needle.isEmpty
  | _ :: rest => listIsPref needle hay || listContainsSub needle rest

/-- Python `needle in hay` on strings, computed on code points. -/
def containsSub (needle hay : String) : Bool :=
  listContainsSub needle.toList hay.toList

/-- Python `str.upper()` (the source only uppercases ASCII method names). -/
def strUpper (s : String) : String :=
  String.mk (s.toList.map Char.toUpper)

/-- Code-point lexicographic order on strings: the order Python's `sorted`
uses on `str` (and the same order as Lean's `String.le`), written to
compute on `toList`. -/
def strLe (a b : String) : Bool :=
  go a.toList b.toList
where
  go : List Char → List Char → Bool
    | [], _ => true
    | _ :: _, [] => false
    | x :: xs, y :: ys =>
      if x.toNat < y.toNat then true
      else if y.toNat < x.toNat then false
      else go xs ys

/-- Insert a string into a sorted list, keeping it sorted (stable). -/
def insertSorted (x : String) : List String → List String
  | [] => [x]
  | y :: ys => if strLe x y then x :: y :: ys else y :: insertSorted x ys

/-- Python `sorted` on a list of strings (ascending, stable). -/
def sortStrings (l : List String) : List String :=
  l.foldr insertSorted []

/-- Drop duplicates, keeping the first occurrence of each element. -/
def dedupKeepFirst (l : List String) : List String :=
  (l.foldl (fun acc x => if acc.contains x then acc else acc ++ [x]) [])

/-- Python `sorted(set(l))` for strings. -/
def sortedSet (l : List String) : List String :=
  sortStrings (dedupKeepFirst l)

/-- Python dict assignment `d[k] = v`: replace the value if the key exists
(keeping its position), else append. -/
def dictInsert {β : Type} (d : List (String × β)) (k : String) (v : β) :
    List (String × β) :=
  if d.any (fun p => p.1 == k) then
    d.map (fun p => if p.1 == k then (k, v) else p)
  else
    d ++ [(k, v)]

/-- Python `d.get(k)` on an association list. -/
def dictGet {β : Type} (d : List (String × β)) (k : String) : Option β :=
  (d.find? (fun p => p.1 == k)).map (·.2)

/-- The keys of an association list, in order. -/
def dictKeys {β : Type} (d : List (String × β)) : List String :=
  d.map (·.1)

/-- Build a Python dict from key/value pairs (later pairs overwrite). -/
def mkDict {β : Type} (l : List (String × β)) : List (String × β) :=
  l.foldl (fun acc p => dictInsert acc p.1 p.2) []

/-! ## `propagate/guardrails.py` -/

/-- The `Guardrails` dataclass (guardrails.py lines 11-21). -/
structure Guardrails where
  max_parallel : Nat
  protected_paths : List String
  ci_required : Bool
  auto_merge : Bool
deriving DecidableEq

/-- The dataclass defaults of `Guardrails` (guardrails.py lines 13-21);
`load_guardrails` keeps `protected_paths` at this default. -/
def defaultGuardrails : Guardrails :=
  { max_parallel := 3
    protected_paths := ["infra/", ".github/workflows/", "terraform/", "k8s/"]
    ci_required := true
    auto_merge := false }

/-- `Guardrails.validate_paths` (guardrails.py lines 33-40): for every path
and every protected path the path starts with, record a violation string. -/
def Guardrails.validate_paths (g : Guardrails) (client_paths : List String) :
    List String :=
  client_paths.foldl
    (fun violations path =>
      violations ++
        g.protected_paths.filterMap
          (fun pro =>
            if startsWith pro path then
              some (path ++ " is under protected path " ++ pro)
            else none))
    []

/-- `Guardrails.check_can_merge` (guardrails.py lines 42-51). -/
def Guardrails.check_can_merge (g : Guardrails) (ci_passed : Bool) :
    Bool × String :=
  if !g.auto_merge then
    (false, "auto_merge is disabled - PR requires human review")
  else if g.ci_required && !ci_passed then
    (false, "ci_required is enabled but CI has not passed")
  else
    (true, "merge allowed")

/-! ## `propagate/dependency_graph.py`

A `DependencyGraph` is its `nodes` dict: service name to the `depends_on`
list of its `ServiceNode`, in insertion order. -/

/-- `DependencyGraph.add_service` (dependency_graph.py lines 21-26). -/
def add_service (nodes : List (String × List String)) (name : String)
    (depends_on : List String) : List (String × List String) :=
  dictInsert nodes name depends_on

/-- Increment `in_degree[dep]` when `dep` is a key (the `if dep in in_degree`
guard of dependency_graph.py line 47). -/
def bumpDegree (inDeg : List (String × Nat)) (dep : String) :
    List (String × Nat) :=
  inDeg.map (fun p => if p.1 == dep then (p.1, p.2 + 1) else p)

/-- Decrement `in_degree[dep]` when `dep` is a key (dependency_graph.py
lines 69-73). -/
def dropDegree (inDeg : List (String × Nat)) (dep : String) :
    List (String × Nat) :=
  inDeg.map (fun p => if p.1 == dep then (p.1, p.2 - 1) else p)

/-- The `while len(processed) < len(self.nodes)` loop of `topological_sort`
(dependency_graph.py lines 53-73), with fuel bounding the number of
iterations.  Each productive iteration processes at least one new node, so
`nodes.length + 1` fuel is always enough; the fuel-exhausted branch is
unreachable and only satisfies the termination checker. -/
def topoLoop (nodes : List (String × List String)) :
    Nat → List (String × Nat) → List String → List (List String) →
    Except String (List (List String))
  | 0, _, _, _ => .error "fuel exhausted"
  | fuel + 1, inDeg, processed, waves =>
    if processed.length < nodes.length then
      let currentWave :=
        (inDeg.filter (fun p => p.2 == 0 && !(processed.contains p.1))).map (·.1)
      if currentWave.isEmpty then
        .error ("Circular dependency detected in: " ++
          String.intercalate ", "
            ((dictKeys nodes).filter (fun n => !(processed.contains n))))
      else
        let waves' := waves ++ [sortStrings currentWave]
        let processed' := processed ++ currentWave
        let inDeg' :=
          currentWave.foldl
            (fun acc service =>
              match dictGet nodes service with
              | some deps => deps.foldl dropDegree acc
              | none => acc)
            inDeg
        topoLoop nodes fuel inDeg' processed' waves'
    else
      .ok waves

/-- `DependencyGraph.topological_sort` (dependency_graph.py lines 28-75).
Counts "incoming" edges by bumping `in_degree[dep]` for every declared
dependency `dep`, then repeatedly takes the nodes of degree 0 as the next
wave.  `Except.error` models the `ValueError` raised on a cycle. -/
def topological_sort (nodes : List (String × List String)) :
    Except String (List (List String)) :=
  let inDeg0 : List (String × Nat) := nodes.map (fun p => (p.1, 0))
  let inDeg :=
    nodes.foldl (fun acc p => p.2.foldl bumpDegree acc) inDeg0
  topoLoop nodes (nodes.length + 1) inDeg [] []

/-- The dependency graph of claim C1 and spec scenario 4, built via
`add_service`: `a -> root`, `b -> root`, `c -> a`, `d -> a,b`, `e -> c,d`,
with the contract-owner node `root` added first with no dependencies. -/
def exampleGraphC1 : List (String × List String) :=
  add_service (add_service (add_service (add_service (add_service
    (add_service [] "root" []) "a" ["root"]) "b" ["root"])
    "c" ["a"]) "d" ["a", "b"]) "e" ["c", "d"]

/-! ## `propagate/service_map.py` and
`build_dependency_graph_from_service_map` (claim C10) -/

/-- The `ServiceInfo` dataclass (service_map.py lines 11-18). -/
structure ServiceInfo where
  repo : String
  language : String
  client_paths : List String
  test_paths : List String
  frontend_paths : List String
  depends_on : List String
deriving DecidableEq

/-- A value of the `service_map` dict as `build_dependency_graph_from_service_map`
receives it at runtime: either a plain `dict` (what the function's docstring
says it expects: "Parsed service_map.yaml") or a `ServiceInfo` dataclass
instance (what `load_service_map` actually returns). -/
inductive PyServiceVal where
  | dict (entries : List (String × List String))
  | info (i : ServiceInfo)
deriving DecidableEq

/-- Python attribute dispatch for `service_info.get("depends_on", ["api-core"])`
(dependency_graph.py line 122): on a dict this is a lookup with a default; on a
`ServiceInfo` dataclass there is no `get` method and an `AttributeError` is
raised, modelled as `Except.error`. -/
def pyGetDependsOn : PyServiceVal → Except String (List String)
  | .dict entries => .ok ((dictGet entries "depends_on").getD ["api-core"])
  | .info _ =>
      .error "AttributeError: ServiceInfo object has no attribute get"

/-- `build_dependency_graph_from_service_map` (dependency_graph.py lines
105-125): add `api-core` as root, then add every service of the map with its
`depends_on` list, propagating the `AttributeError` of `pyGetDependsOn`. -/
def build_dependency_graph_from_service_map
    (service_map : List (String × PyServiceVal)) :
    Except String (List (String × List String)) :=
  service_map.foldlM
    (fun graph p => do
      let dependencies ← pyGetDependsOn p.2
      pure (add_service graph p.1 dependencies))
    (add_service [] "api-core" [])

/-- The composition the orchestrator performs (`__main__.py` lines 487-494):
`load_service_map` produces `ServiceInfo` dataclass values (service_map.py
lines 29-39), and its result is passed to
`build_dependency_graph_from_service_map`. -/
def graph_from_loaded_service_map (m : List (String × ServiceInfo)) :
    Except String (List (String × List String)) :=
  build_dependency_graph_from_service_map
    (m.map (fun p => (p.1, PyServiceVal.info p.2)))

/-! ## `propagate/differ.py`

Contract documents are modelled by the keys the differ reads.  A schema
dict is a `Sch` carrying the `$ref`, `type`, `properties`, `required`,
`items` and `enum` keys (each optional / possibly empty); an operation
carries `parameters`, `requestBody` (its `content` map), `security` and
`responses` (each response flattened to its `application/json` schema,
the only part of a response the differ reads).  Enum members are
modelled as strings.  Where CPython iterates a `set` in hash order the
embedding iterates in first-listed order; the set of emitted diffs is
the same. -/

/-- A schema object: the keys of a schema dict that differ.py reads. -/
inductive Sch where
  | mk (ref : Option String) (ty : Option String)
       (props : List (String × Sch)) (req : List String)
       (items : Option Sch) (enums : List String)

/-- The `$ref` key. -/
def Sch.ref : Sch → Option String
  | .mk r _ _ _ _ _ => r

/-- The `type` key. -/
def Sch.ty : Sch → Option String
  | .mk _ t _ _ _ _ => t

/-- The `properties` key (empty list when absent). -/
def Sch.props : Sch → List (String × Sch)
  | .mk _ _ p _ _ _ => p

/-- The `required` key (empty list when absent). -/
def Sch.req : Sch → List String
  | .mk _ _ _ r _ _ => r

/-- The `items` key. -/
def Sch.items : Sch → Option Sch
  | .mk _ _ _ _ i _ => i

/-- The `enum` key (empty list when absent). -/
def Sch.enums : Sch → List String
  | .mk _ _ _ _ _ e => e

/-- The empty schema dict `{}` (what every missing-key `.get` defaults to). -/
def emptySch : Sch := .mk none none [] [] none []

/-- A parameter dict: the keys differ.py reads (`name`, `in`, `required`,
`schema`). -/
structure Param where
  name : Option String
  inLoc : Option String
  required : Bool
  schema : Option Sch

/-- An operation object, with each piece reduced to the keys the differ
reads: `parameters`; the `content` map of `requestBody` (`none` when the
`requestBody` key is absent or the empty dict, which are
indistinguishable to the source's truthiness tests); `security`
(a list of requirement dicts: scheme name to scopes); `responses`
(status code to the `content.application/json.schema` value). -/
structure Operation where
  parameters : List Param
  requestBody : Option (List (String × Option Sch))
  security : List (List (String × List String))
  responses : List (String × Option Sch)

/-- The empty operation dict `{}`. -/
def emptyOperation : Operation :=
  { parameters := [], requestBody := none, security := [], responses := [] }

/-- Python dict truthiness of an operation, over the keys the model
represents. -/
def opTruthy (o : Operation) : Bool :=
  !(o.parameters.isEmpty && o.requestBody.isNone && o.security.isEmpty &&
    o.responses.isEmpty)

/-- A contract document: the `paths` mapping (URL template to method to
operation) and the `components.schemas` section, the `$ref` target
location used by the repository's contracts. -/
structure Contract where
  paths : List (String × List (String × Operation))
  componentsSchemas : List (String × Sch)

/-- The values a `ContractDiff` stores in `old_value` / `new_value`:
`None`, strings, schema dicts, lists of strings, or parameter dicts. -/
inductive DVal where
  | null
  | s (v : String)
  | sch (v : Sch)
  | strs (v : List String)
  | param (v : Param)

/-- Python `None`-or-string as a diff value. -/
def optTyVal : Option String → DVal
  | some v => .s v
  | none => .null

/-- Python `None`-or-schema as a diff value. -/
def optSchVal : Option Sch → DVal
  | some v => .sch v
  | none => .null

/-- The `ContractDiff` dataclass (differ.py lines 11-18). -/
structure ContractDiff where
  path : String
  method : String
  field : String
  old_value : DVal
  new_value : DVal
  diff_type : String

/-- Python truthiness of an optional string (`None` and `""` are falsy). -/
def optStrTruthy : Option String → Bool
  | some v => !(strIsEmpty v)
  | none => false

/-- Render an optional string inside an f-string (`None` prints as such). -/
def optRender (o : Option String) : String := o.getD "None"

/-- `_resolve_ref` (differ.py lines 27-33): walk the pointer path through
the document.  The model materializes only `components.schemas`, so a
pointer of the form `#/components/schemas/N` resolves to that schema (or
to `{}` when `N` is absent, as each step of the source walk defaults to
`{}`), and any other pointer path resolves to `{}`. -/
def resolve_ref (spec : Contract) (r : String) : Sch :=
  if startsWith "#/components/schemas/" r then
    (dictGet spec.componentsSchemas
      (String.mk (r.toList.drop 21))).getD emptySch
  else
    emptySch

/-- `_resolve_schema` (differ.py lines 36-40): follow `$ref` once if
present. -/
def resolve_schema (spec : Contract) (schema : Sch) : Sch :=
  match schema.ref with
  | some r => resolve_ref spec r
  | none => schema

/-- `_get_schema_properties` (differ.py lines 43-50). -/
def get_schema_properties (spec : Contract) (schema : Sch) :
    List (String × Sch) :=
  let s := resolve_schema spec schema
  if s.ty == some "array" then
    (resolve_schema spec (s.items.getD emptySch)).props
  else
    s.props

/-- `_get_required_fields` (differ.py lines 53-59); the result is a Python
`set`, modelled as a deduplicated list. -/
def get_required_fields (spec : Contract) (schema : Sch) : List String :=
  let s := resolve_schema spec schema
  dedupKeepFirst
    (if s.ty == some "array" then
      (resolve_schema spec (s.items.getD emptySch)).req
    else
      s.req)

/-- The `nested_field_removed` diffs of one object comparison (differ.py
lines 81-88). -/
def nested_removed_diffs (old_sub new_sub : List (String × Sch))
    (path method fieldPath : String) : List ContractDiff :=
  ((dictKeys old_sub).filter
    (fun k => !((dictKeys new_sub).contains k))).map
    (fun sub_name =>
      { path, method, field := fieldPath ++ "." ++ sub_name,
        old_value := optSchVal (dictGet old_sub sub_name),
        new_value := .null, diff_type := "nested_field_removed" })

/-- The `nested_field_added` diffs of one object comparison (differ.py
lines 90-97). -/
def nested_added_diffs (old_sub new_sub : List (String × Sch))
    (path method fieldPath : String) : List ContractDiff :=
  ((dictKeys new_sub).filter
    (fun k => !((dictKeys old_sub).contains k))).map
    (fun sub_name =>
      { path, method, field := fieldPath ++ "." ++ sub_name,
        old_value := .null,
        new_value := optSchVal (dictGet new_sub sub_name),
        diff_type := "nested_field_added" })

/-- The keys both property dicts share (`set(old) & set(new)`), in the
old dict's order. -/
def common_keys {β : Type} (old_sub new_sub : List (String × β)) :
    List String :=
  (dictKeys old_sub).filter (fun k => (dictKeys new_sub).contains k)

/-- The `nested_field_type_changed` diff of one common property (differ.py
lines 100-109). -/
def nested_type_diff (path method fieldPath : String) (o n : Sch) :
    List ContractDiff :=
  if o.ty != n.ty then
    [{ path, method, field := fieldPath,
       old_value := optTyVal o.ty, new_value := optTyVal n.ty,
       diff_type := "nested_field_type_changed" }]
  else []

/-- The body of the common-property loop of `_diff_nested` (differ.py
lines 99-120): type comparison, then recursion into object/array
children; `recur` is the recursive call at one less fuel. -/
def nested_child_step
    (recur : Sch → Sch → String → Option (List ContractDiff))
    (old_spec new_spec : Contract) (old_sub new_sub : List (String × Sch))
    (path method fieldPath : String)
    (acc : List ContractDiff) (sub_name : String) :
    Option (List ContractDiff) := do
  let o := (dictGet old_sub sub_name).getD emptySch
  let n := (dictGet new_sub sub_name).getD emptySch
  let typeDiffs := nested_type_diff path method (fieldPath ++ "." ++ sub_name) o n
  let o_res := resolve_schema old_spec o
  let n_res := resolve_schema new_spec n
  let inner ←
    if o_res.ty == some "object" || o_res.ty == some "array" ||
        n_res.ty == some "object" || n_res.ty == some "array" then
      recur o n (fieldPath ++ "." ++ sub_name)
    else
      pure []
  pure (acc ++ typeDiffs ++ inner)

/-- The object branch of `_diff_nested` (differ.py lines 77-120). -/
def nested_object_part
    (recur : Sch → Sch → String → Option (List ContractDiff))
    (old_spec new_spec : Contract) (old_resolved new_resolved : Sch)
    (path method fieldPath : String) : Option (List ContractDiff) :=
  if old_resolved.ty == some "object" &&
      new_resolved.ty == some "object" then
    let old_sub := old_resolved.props
    let new_sub := new_resolved.props
    (common_keys old_sub new_sub).foldlM
      (nested_child_step recur old_spec new_spec old_sub new_sub path
        method fieldPath)
      (nested_removed_diffs old_sub new_sub path method fieldPath ++
        nested_added_diffs old_sub new_sub path method fieldPath)
  else pure []

/-- The `array_item_type_changed` diff (differ.py lines 130-137): both
item types truthy and different. -/
def array_type_diff (path method fieldPath : String)
    (old_item_type new_item_type : Option String) : List ContractDiff :=
  if optStrTruthy old_item_type && optStrTruthy new_item_type &&
      old_item_type != new_item_type then
    [{ path, method, field := fieldPath ++ ".items",
       old_value := optTyVal old_item_type,
       new_value := optTyVal new_item_type,
       diff_type := "array_item_type_changed" }]
  else []

/-- The array branch of `_diff_nested` (differ.py lines 123-145). -/
def nested_array_part
    (recur : Sch → Sch → String → Option (List ContractDiff))
    (old_spec new_spec : Contract) (old_resolved new_resolved : Sch)
    (path method fieldPath : String) : Option (List ContractDiff) :=
  if old_resolved.ty == some "array" &&
      new_resolved.ty == some "array" then do
    let old_items := old_resolved.items.getD emptySch
    let new_items := new_resolved.items.getD emptySch
    let old_item_type := (resolve_schema old_spec old_items).ty
    let new_item_type := (resolve_schema new_spec new_items).ty
    let typeDiffs := array_type_diff path method fieldPath old_item_type
      new_item_type
    let inner ←
      if old_item_type == some "object" || old_item_type == some "array" ||
          new_item_type == some "object" ||
          new_item_type == some "array" then
        recur old_items new_items (fieldPath ++ ".items")
      else
        pure []
    pure (typeDiffs ++ inner)
  else pure []

/-- `_diff_nested` (differ.py lines 62-145), with `fuel` bounding the
recursion depth: `none` means the source recursion does not return within
that depth (on a `$ref` cycle, CPython raises `RecursionError`). -/
def diff_nested :
    Nat → Contract → Contract → Sch → Sch → String → String → String →
    Option (List ContractDiff)
  | 0, _, _, _, _, _, _, _ => none
  | fuel + 1, old_spec, new_spec, old_field, new_field, path, method,
    fieldPath => do
    let old_resolved := resolve_schema old_spec old_field
    let new_resolved := resolve_schema new_spec new_field
    let objectDiffs ←
      nested_object_part
        (fun a b fp => diff_nested fuel old_spec new_spec a b path method fp)
        old_spec new_spec old_resolved new_resolved path method fieldPath
    let arrayDiffs ←
      nested_array_part
        (fun a b fp => diff_nested fuel old_spec new_spec a b path method fp)
        old_spec new_spec old_resolved new_resolved path method fieldPath
    pure (objectDiffs ++ arrayDiffs)


/-- Parameter dict key: `(name, in)` (differ.py lines 187-188). -/
abbrev ParamKey := Option String × Option String

/-- Python dict assignment for parameter dicts keyed by `(name, in)`. -/
def pdictInsert (d : List (ParamKey × Param)) (k : ParamKey) (v : Param) :
    List (ParamKey × Param) :=
  if d.any (fun p => p.1 == k) then
    d.map (fun p => if p.1 == k then (k, v) else p)
  else
    d ++ [(k, v)]

/-- Python dict lookup for parameter dicts. -/
def pdictGet (d : List (ParamKey × Param)) (k : ParamKey) : Option Param :=
  (d.find? (fun p => p.1 == k)).map (·.2)

/-- The keys of a parameter dict, in insertion order. -/
def pdictKeys (d : List (ParamKey × Param)) : List ParamKey :=
  d.map (·.1)

/-- The dict comprehension `{(p.get("name"), p.get("in")): p for p in
op.get("parameters", [])}` (differ.py lines 187-188). -/
def mkParamDict (ps : List Param) : List (ParamKey × Param) :=
  ps.foldl (fun acc p => pdictInsert acc (p.name, p.inLoc) p) []

/-- The field pointer `f"parameter.{key[1]}.{key[0]}"` of a parameter diff
(differ.py line 195). -/
def paramField (key : ParamKey) : String :=
  "parameter." ++ optRender key.2 ++ "." ++ optRender key.1

/-- The parameter comparison of `diff_contracts` (differ.py lines 186-220):
required additions, removals, and schema-type changes keyed by
`(name, in)`. -/
def diff_params (path method : String) (old_op new_op : Operation) :
    List ContractDiff :=
  let old_params := mkParamDict old_op.parameters
  let new_params := mkParamDict new_op.parameters
  let addedDiffs :=
    ((pdictKeys new_params).filter
      (fun k => !((pdictKeys old_params).contains k))).filterMap
      (fun key =>
        match pdictGet new_params key with
        | some param =>
          if param.required then
            some { path, method, field := paramField key,
                   old_value := .null, new_value := .param param,
                   diff_type := "parameter_added_required" }
          else none
        | none => none)
  let removedDiffs :=
    ((pdictKeys old_params).filter
      (fun k => !((pdictKeys new_params).contains k))).filterMap
      (fun key =>
        (pdictGet old_params key).map
          (fun param =>
            { path, method, field := paramField key,
              old_value := .param param, new_value := .null,
              diff_type := "parameter_removed" }))
  let commonDiffs :=
    ((pdictKeys old_params).filter
      (fun k => (pdictKeys new_params).contains k)).filterMap
      (fun key => do
        let old_p ← pdictGet old_params key
        let new_p ← pdictGet new_params key
        let old_p_schema := old_p.schema.getD emptySch
        let new_p_schema := new_p.schema.getD emptySch
        if old_p_schema.ty != new_p_schema.ty then
          some { path, method, field := paramField key,
                 old_value := optTyVal old_p_schema.ty,
                 new_value := optTyVal new_p_schema.ty,
                 diff_type := "parameter_type_changed" }
        else none)
  addedDiffs ++ removedDiffs ++ commonDiffs

/-- The request-body content-type comparison of `diff_contracts`
(differ.py lines 222-234): both sets non-empty and different. -/
def diff_content_types (path method : String) (old_op new_op : Operation) :
    List ContractDiff :=
  let old_content_types := dedupKeepFirst (dictKeys (old_op.requestBody.getD []))
  let new_content_types := dedupKeepFirst (dictKeys (new_op.requestBody.getD []))
  if !old_content_types.isEmpty && !new_content_types.isEmpty &&
      sortedSet old_content_types != sortedSet new_content_types then
    [{ path, method, field := "request.content_type",
       old_value := .strs (sortStrings old_content_types),
       new_value := .strs (sortStrings new_content_types),
       diff_type := "content_type_changed" }]
  else []

/-- The security comparison of `diff_contracts` (differ.py lines 236-249):
when the security lists differ, compare the sorted scheme-name lists. -/
def diff_security (path method : String) (old_op new_op : Operation) :
    List ContractDiff :=
  if old_op.security != new_op.security then
    let old_schemes :=
      if !old_op.security.isEmpty then
        sortStrings (old_op.security.foldl (fun acc s => acc ++ dictKeys s) [])
      else []
    let new_schemes :=
      if !new_op.security.isEmpty then
        sortStrings (new_op.security.foldl (fun acc s => acc ++ dictKeys s) [])
      else []
    if old_schemes != new_schemes then
      [{ path, method, field := "security",
         old_value := if old_schemes.isEmpty then .null else .strs old_schemes,
         new_value := if new_schemes.isEmpty then .null else .strs new_schemes,
         diff_type := "security_changed" }]
    else []
  else []

/-- The chain `req_body.get("content", {}).get("application/json",
{}).get("schema", {})` (differ.py lines 251-256). -/
def jsonSchemaOf (content : List (String × Option Sch)) : Sch :=
  ((dictGet content "application/json").bind id).getD emptySch

/-- The `field_type_changed` diff of one common field (differ.py lines
297-306 and 370-379). -/
def field_type_diff (path method fieldPath : String)
    (old_field new_field : Sch) : List ContractDiff :=
  if old_field.ty != new_field.ty then
    [{ path, method, field := fieldPath,
       old_value := optTyVal old_field.ty,
       new_value := optTyVal new_field.ty,
       diff_type := "field_type_changed" }]
  else []

/-- The `enum_values_removed` diff of one common field (differ.py lines
308-320 and 381-393): both enum sets non-empty and the new one missing
values of the old. -/
def enum_removed_diff (path method fieldPath : String)
    (old_field new_field : Sch) : List ContractDiff :=
  let old_enum := dedupKeepFirst old_field.enums
  let new_enum := dedupKeepFirst new_field.enums
  let removed_values := old_enum.filter (fun v => !(new_enum.contains v))
  if !old_enum.isEmpty && !new_enum.isEmpty && !removed_values.isEmpty then
    [{ path, method, field := fieldPath,
       old_value := .strs (sortStrings old_enum),
       new_value := .strs (sortStrings new_enum),
       diff_type := "enum_values_removed" }]
  else []

/-- The new-required-field diffs of the request body (differ.py lines
263-281): brand-new required fields and optional-to-required
promotions. -/
def required_field_diffs (old_props new_props : List (String × Sch))
    (old_required new_required : List String) (path method : String) :
    List ContractDiff :=
  (new_required.filter (fun f => !(old_required.contains f))).map
    (fun field_name =>
      if !((dictKeys old_props).contains field_name) then
        { path, method, field := "request.body." ++ field_name,
          old_value := .null,
          new_value := optSchVal (dictGet new_props field_name),
          diff_type := "field_added_required" }
      else
        { path, method, field := "request.body." ++ field_name,
          old_value := .s "optional", new_value := .s "required",
          diff_type := "field_optional_to_required" })

/-- The removed-field diffs of one properties comparison (differ.py lines
283-291 and 344-352); `fieldBase` is `"request.body."` or
`"response.{status}."`. -/
def removed_field_diffs (old_props new_props : List (String × Sch))
    (path method fieldBase : String) : List ContractDiff :=
  ((dictKeys old_props).filter
    (fun f => !((dictKeys new_props).contains f))).map
    (fun field_name =>
      { path, method, field := fieldBase ++ field_name,
        old_value := optSchVal (dictGet old_props field_name),
        new_value := .null, diff_type := "field_removed" })

/-- The body of the common-field loop over request-body properties
(differ.py lines 293-327): type change, enum narrowing, then the nested
comparison. -/
def request_field_step (fuel : Nat) (old_spec new_spec : Contract)
    (old_props new_props : List (String × Sch)) (path method : String)
    (acc : List ContractDiff) (field_name : String) :
    Option (List ContractDiff) := do
  let old_field := (dictGet old_props field_name).getD emptySch
  let new_field := (dictGet new_props field_name).getD emptySch
  let typeDiffs := field_type_diff path method
    ("request.body." ++ field_name) old_field new_field
  let enumDiffs := enum_removed_diff path method
    ("request.body." ++ field_name) old_field new_field
  let nested ←
    diff_nested fuel old_spec new_spec old_field new_field path method
      ("request.body." ++ field_name)
  pure (acc ++ typeDiffs ++ enumDiffs ++ nested)

/-- The request-body comparison of `diff_contracts` (differ.py lines
250-327). -/
def diff_request_body (fuel : Nat) (old_spec new_spec : Contract)
    (path method : String) (old_op new_op : Operation) :
    Option (List ContractDiff) :=
  let old_schema := jsonSchemaOf (old_op.requestBody.getD [])
  let new_schema := jsonSchemaOf (new_op.requestBody.getD [])
  let old_props := get_schema_properties old_spec old_schema
  let new_props := get_schema_properties new_spec new_schema
  let old_required := get_required_fields old_spec old_schema
  let new_required := get_required_fields new_spec new_schema
  (common_keys old_props new_props).foldlM
    (request_field_step fuel old_spec new_spec old_props new_props path
      method)
    (required_field_diffs old_props new_props old_required new_required
      path method ++
     removed_field_diffs old_props new_props path method "request.body.")

/-- The new-object-typed-field diffs of one response comparison
(differ.py lines 354-364). -/
def response_structure_diffs (old_props new_props : List (String × Sch))
    (path method status_code : String) : List ContractDiff :=
  ((dictKeys new_props).filter
    (fun f => !((dictKeys old_props).contains f))).filterMap
    (fun field_name =>
      let new_field := (dictGet new_props field_name).getD emptySch
      if new_field.ty == some "object" then
        some { path, method,
               field := "response." ++ status_code ++ "." ++ field_name,
               old_value := .null, new_value := .sch new_field,
               diff_type := "response_structure_changed" }
      else none)

/-- The body of the common-field loop over response properties (differ.py
lines 366-400). -/
def response_field_step (fuel : Nat) (old_spec new_spec : Contract)
    (old_props new_props : List (String × Sch))
    (path method status_code : String)
    (acc : List ContractDiff) (field_name : String) :
    Option (List ContractDiff) := do
  let old_field := (dictGet old_props field_name).getD emptySch
  let new_field := (dictGet new_props field_name).getD emptySch
  let typeDiffs := field_type_diff path method
    ("response." ++ status_code ++ "." ++ field_name) old_field new_field
  let enumDiffs := enum_removed_diff path method
    ("response." ++ status_code ++ "." ++ field_name) old_field new_field
  let nested ←
    diff_nested fuel old_spec new_spec old_field new_field path method
      ("response." ++ status_code ++ "." ++ field_name)
  pure (acc ++ typeDiffs ++ enumDiffs ++ nested)

/-- The body of the per-status-code loop of the response comparison
(differ.py lines 330-400). -/
def response_status_step (fuel : Nat) (old_spec new_spec : Contract)
    (path method : String) (old_op new_op : Operation)
    (accS : List ContractDiff) (status_code : String) :
    Option (List ContractDiff) :=
  let old_resp_schema :=
    ((dictGet old_op.responses status_code).bind id).getD emptySch
  let new_resp_schema :=
    ((dictGet new_op.responses status_code).bind id).getD emptySch
  let old_resp_props := get_schema_properties old_spec old_resp_schema
  let new_resp_props := get_schema_properties new_spec new_resp_schema
  (common_keys old_resp_props new_resp_props).foldlM
    (response_field_step fuel old_spec new_spec old_resp_props
      new_resp_props path method status_code)
    (accS ++
     removed_field_diffs old_resp_props new_resp_props path method
       ("response." ++ status_code ++ ".") ++
     response_structure_diffs old_resp_props new_resp_props path method
       status_code)

/-- The response comparison of `diff_contracts` (differ.py lines
329-400). -/
def diff_responses (fuel : Nat) (old_spec new_spec : Contract)
    (path method : String) (old_op new_op : Operation) :
    Option (List ContractDiff) :=
  let statuses :=
    dedupKeepFirst (dictKeys old_op.responses ++ dictKeys new_op.responses)
  statuses.foldlM
    (response_status_step fuel old_spec new_spec path method old_op new_op)
    []

/-- The HTTP-method filter of differ.py line 163. -/
def httpMethods : List String :=
  ["get", "post", "put", "patch", "delete", "options", "head"]

/-- The per-method body of `diff_contracts` (differ.py lines 166-400):
operation added/removed short-circuits, else parameters, content types,
security, request body and responses in source order. -/
def diff_method (fuel : Nat) (old_spec new_spec : Contract)
    (path method : String) (old_op new_op : Operation) :
    Option (List ContractDiff) :=
  if !opTruthy old_op && opTruthy new_op then
    pure [{ path, method, field := "operation",
            old_value := .null, new_value := .s "added",
            diff_type := "operation_added" }]
  else if opTruthy old_op && !opTruthy new_op then
    pure [{ path, method, field := "operation",
            old_value := .s "exists", new_value := .null,
            diff_type := "operation_removed" }]
  else do
    let paramDiffs := diff_params path method old_op new_op
    let contentDiffs := diff_content_types path method old_op new_op
    let securityDiffs := diff_security path method old_op new_op
    let bodyDiffs ←
      if old_op.requestBody.isSome || new_op.requestBody.isSome then
        diff_request_body fuel old_spec new_spec path method old_op new_op
      else
        pure []
    let respDiffs ← diff_responses fuel old_spec new_spec path method
      old_op new_op
    pure (paramDiffs ++ contentDiffs ++ securityDiffs ++ bodyDiffs ++
      respDiffs)

/-- The per-method body of the path loop of `diff_contracts` (differ.py
lines 166-168). -/
def method_step (fuel : Nat) (old_spec new_spec : Contract) (path : String)
    (old_path_item new_path_item : List (String × Operation))
    (accM : List ContractDiff) (method : String) :
    Option (List ContractDiff) := do
  let old_op := (dictGet old_path_item method).getD emptyOperation
  let new_op := (dictGet new_path_item method).getD emptyOperation
  let d ← diff_method fuel old_spec new_spec path method old_op new_op
  pure (accM ++ d)

/-- The per-path body of `diff_contracts` (differ.py lines 157-166). -/
def path_step (fuel : Nat) (old_spec new_spec : Contract)
    (accP : List ContractDiff) (path : String) :
    Option (List ContractDiff) :=
  let old_path_item := (dictGet old_spec.paths path).getD []
  let new_path_item := (dictGet new_spec.paths path).getD []
  let all_methods :=
    sortStrings
      ((dedupKeepFirst
        (dictKeys old_path_item ++ dictKeys new_path_item)).filter
        (fun m => httpMethods.contains m))
  all_methods.foldlM
    (method_step fuel old_spec new_spec path old_path_item new_path_item)
    accP

/-- `diff_contracts` (differ.py lines 148-402), with `fuel` bounding the
nested-schema recursion depth: `none` means the comparison does not return
at that depth (CPython: `RecursionError`). -/
def diff_contracts (fuel : Nat) (old_spec new_spec : Contract) :
    Option (List ContractDiff) :=
  let all_paths :=
    sortedSet (dictKeys old_spec.paths ++ dictKeys new_spec.paths)
  all_paths.foldlM (path_step fuel old_spec new_spec) []


/-! ## `propagate/classifier.py` -/

/-- `BREAKING_DIFF_TYPES` (classifier.py lines 11-23). -/
def BREAKING_DIFF_TYPES : List String :=
  ["field_added_required", "field_optional_to_required", "field_removed",
   "field_type_changed", "field_moved", "response_structure_changed",
   "operation_removed", "enum_values_removed", "nested_field_removed",
   "nested_field_type_changed", "array_item_type_changed"]

/-- One entry of `changed_fields` (classifier.py lines 98-108).  The source
stringifies `old_value` / `new_value` with `str(...)`; the values are kept
as `DVal` here (no claim reads the rendering). -/
structure ChangedField where
  path : String
  method : String
  field : String
  diff_type : String
  old_value : DVal
  new_value : DVal

/-- The `ClassifiedChange` dataclass (classifier.py lines 26-33). -/
structure ClassifiedChange where
  is_breaking : Bool
  severity : String
  summary : String
  changed_routes : List String
  changed_fields : List ChangedField
  diffs : List ContractDiff

/-- `classify_changes` (classifier.py lines 36-117). -/
def classify_changes (diffs : List ContractDiff) : ClassifiedChange :=
  if diffs.isEmpty then
    { is_breaking := false, severity := "low",
      summary := "No changes detected", changed_routes := [],
      changed_fields := [], diffs := [] }
  else
    let breaking_diffs :=
      diffs.filter (fun d => BREAKING_DIFF_TYPES.contains d.diff_type)
    let is_breaking := decide (0 < breaking_diffs.length)
    let has_required_field_add :=
      diffs.any (fun d => d.diff_type == "field_added_required" ||
        d.diff_type == "field_optional_to_required")
    let has_structure_change :=
      diffs.any (fun d => d.diff_type == "response_structure_changed")
    let has_field_removed :=
      diffs.any (fun d => d.diff_type == "field_removed" ||
        d.diff_type == "nested_field_removed")
    let has_type_change :=
      diffs.any (fun d => d.diff_type == "field_type_changed" ||
        d.diff_type == "nested_field_type_changed" ||
        d.diff_type == "array_item_type_changed")
    let has_enum_narrowing :=
      diffs.any (fun d => d.diff_type == "enum_values_removed")
    let severity :=
      if has_required_field_add || has_structure_change then "critical"
      else if has_field_removed || has_enum_narrowing then "high"
      else if has_type_change then "medium"
      else "low"
    let parts : List String :=
      (if has_required_field_add then
        ["New required field(s): " ++ String.intercalate ", "
          ((diffs.filter (fun d => d.diff_type == "field_added_required" ||
            d.diff_type == "field_optional_to_required")).map (·.field))]
      else []) ++
      (if has_field_removed then
        ["Removed field(s): " ++ String.intercalate ", "
          ((diffs.filter (fun d => d.diff_type == "field_removed" ||
            d.diff_type == "nested_field_removed")).map (·.field))]
      else []) ++
      (if has_structure_change then
        ["Response structure changed: " ++ String.intercalate ", "
          ((diffs.filter
            (fun d => d.diff_type == "response_structure_changed")).map
            (·.field))]
      else []) ++
      (if has_type_change then
        ["Type changed: " ++ String.intercalate ", "
          ((diffs.filter (fun d => d.diff_type == "field_type_changed" ||
            d.diff_type == "nested_field_type_changed" ||
            d.diff_type == "array_item_type_changed")).map (·.field))]
      else []) ++
      (if has_enum_narrowing then
        ["Enum values removed: " ++ String.intercalate ", "
          ((diffs.filter
            (fun d => d.diff_type == "enum_values_removed")).map (·.field))]
      else [])
    let summary :=
      if !parts.isEmpty then String.intercalate "; " parts
      else "Non-breaking changes detected"
    let changed_routes :=
      sortedSet (diffs.map (fun d => strUpper d.method ++ " " ++ d.path))
    let changed_fields := diffs.map
      (fun d =>
        { path := d.path, method := d.method, field := d.field,
          diff_type := d.diff_type, old_value := d.old_value,
          new_value := d.new_value : ChangedField })
    { is_breaking, severity, summary, changed_routes, changed_fields, diffs }

/-! ## `propagate/devin_client.py` and `propagate/dispatcher.py`

`RepoFixBundle` lives in `propagate/bundle.py`, which is not present in the
sources; its fields are those the dispatcher and the repository's tests
read (also listed in the specification, section 3). -/

/-- The fields of the `RepoFixBundle` dataclass that the dispatcher reads.
Modelled from the spec: `propagate/bundle.py` is absent from the sources;
the field list follows section 3 of the specification and the
construction sites in `tests/test_dispatcher.py`. -/
structure RepoFixBundle where
  target_repo : String
  target_service : String
  change_summary : String
  breaking_changes : List String
  affected_routes : List String
  call_count_7d : Nat
  client_paths : List String
  test_paths : List String
  frontend_paths : List String
  prompt : String
  bundle_hash : String

/-- The JSON payload `DevinClient.create_session` posts (devin_client.py
lines 90-109): always the prompt; the idempotency key only when the
argument is truthy (it defaults to `None`). -/
structure CreatePayload where
  prompt : String
  idempotency_key : Option String
deriving DecidableEq

/-- The payload construction of `create_session` (devin_client.py lines
100-104; `wave_context` is likewise omitted when falsy and is never passed
by the dispatcher). -/
def create_session_payload (prompt : String)
    (idempotency_key : Option String) : CreatePayload :=
  { prompt
    idempotency_key :=
      match idempotency_key with
      | some k => if strIsEmpty k then none else some k
      | none => none }

/-- One `audit_log` row as the dispatcher and reconciler write it:
`(old_status, new_status, detail)`. -/
structure AuditRow where
  old_status : Option String
  new_status : String
  detail : Option String
deriving DecidableEq

/-- What one polling step of the dispatcher observes: a `get_session`
exception (swallowed, loop continues), or the session payload, reduced to
`status_enum` and the `structured_output.pull_request.url` chain:
`structured` is `none` when `structured_output` is missing or the empty
dict, `some none` when it is non-empty without a truthy `pull_request`,
and `some (some url)` when a `pull_request` dict with a `url` is there. -/
inductive PollOutcome where
  | pollError
  | payload (status_enum : String) (structured : Option (Option String))

/-- The external world one `dispatch_one` unit runs against: the result of
`create_session` (`Except.error` models a raised exception, carrying
`str(e)`), and the successive `get_session` observations. -/
structure DispatchWorld where
  create_result : Except String String
  polls : Nat → PollOutcome

/-- The `remediation_jobs` row fields that `dispatch_one` writes. -/
structure DispatchedJob where
  change_id : Nat
  target_repo : String
  status : String
  bundle_hash : String
  devin_run_id : Option String
  pr_url : Option String
  error_summary : Option String
deriving DecidableEq

/-- `_log_transition` (dispatcher.py lines 23-37, check_status.py lines
245-258): the audit row recorded for one status transition. -/
def log_transition (old_status : Option String) (new_status : String)
    (detail : Option String) : AuditRow :=
  { old_status, new_status, detail }

/-- Python truthiness of the nullable `pr_url` column (`None` and `""` are
falsy). -/
def prTruthy : Option String → Bool
  | some s => !(strIsEmpty s)
  | none => false

/-- `MAX_POLL_ATTEMPTS` (dispatcher.py line 40). -/
def MAX_POLL_ATTEMPTS : Nat := 120

/-- The polling loop of `dispatch_one` (dispatcher.py lines 99-150):
per attempt, swallow poll errors, attach a PR from `structured_output`
(transitioning to `pr_opened` once), stop on `blocked` (`needs_human`) or
`stopped` (`green` with a PR, else `ci_failed`); when all attempts are
used, `needs_human` with "Polling timed out". -/
def dispatchPollLoop (w : DispatchWorld) :
    Nat → Nat → DispatchedJob → List AuditRow →
    DispatchedJob × List AuditRow
  | 0, _, job, rows =>
    ({ job with
        status := "needs_human"
        error_summary := some "Polling timed out" },
     rows ++ [log_transition (some job.status) "needs_human"
       (some "Polling timed out after max attempts")])
  | n + 1, idx, job, rows =>
    match w.polls idx with
    | .pollError => dispatchPollLoop w n (idx + 1) job rows
    | .payload status_enum structured =>
      let (job, rows) :=
        match structured with
        | some (some url) =>
          let job := { job with pr_url := some url }
          if job.status != "pr_opened" then
            ({ job with status := "pr_opened" },
             rows ++ [log_transition (some job.status) "pr_opened"
               (some ("PR: " ++ url))])
          else (job, rows)
        | _ => (job, rows)
      if status_enum == "blocked" then
        ({ job with
            status := "needs_human"
            error_summary :=
              some "Devin session blocked - needs human review" },
         rows ++ [log_transition (some job.status) "needs_human"
           (some "Devin session blocked - needs human review")])
      else if status_enum == "stopped" then
        if prTruthy job.pr_url then
          ({ job with status := "green" },
           rows ++ [log_transition (some job.status) "green"
             (some ("CI passed, PR merged: " ++ (job.pr_url.getD "")))])
        else
          ({ job with
              status := "ci_failed"
              error_summary :=
                some "Devin session stopped without creating a PR" },
           rows ++ [log_transition (some job.status) "ci_failed"
             (some "Devin session stopped without creating a PR")])
      else
        dispatchPollLoop w n (idx + 1) job rows

/-- `dispatch_one` (dispatcher.py lines 69-162) for one bundle: create the
job in `queued`, transition to `running`, call `create_session` with only
the bundle prompt, then poll.  The returned triple is the final job row,
the audit rows written, and the `create_session` payloads sent to the
agent (empty when the call was never made). -/
def dispatch_one (w : DispatchWorld) (bundle : RepoFixBundle)
    (change_id : Nat) :
    DispatchedJob × List AuditRow × List CreatePayload :=
  let job : DispatchedJob :=
    { change_id, target_repo := bundle.target_repo, status := "queued",
      bundle_hash := bundle.bundle_hash, devin_run_id := none,
      pr_url := none, error_summary := none }
  let rows : List AuditRow :=
    [log_transition none "queued" (some "Job created")]
  let job := { job with status := "running" }
  let rows := rows ++
    [log_transition (some "queued") "running" (some "Dispatching to Devin")]
  let calls := [create_session_payload bundle.prompt none]
  match w.create_result with
  | .error e =>
    ({ job with
        status := "needs_human"
        error_summary := some e },
     rows ++ [log_transition (some "running") "needs_human" (some e)],
     calls)
  | .ok session_id =>
    let job := { job with devin_run_id := some session_id }
    let (job, rows) := dispatchPollLoop w MAX_POLL_ATTEMPTS 0 job rows
    (job, rows, calls)

/-! ## `propagate/check_status.py`

The reconciler is embedded per job: `sync_one_job` is the body of the
`for job in jobs:` loop of `sync_job_statuses` (lines 307-548) for one
selected job, against a fixed external world.  GitHub and Devin calls
are world functions; `_find_replacement_open_pr` takes its preference
arguments from the metadata of the stale PR URL it is called with, so it
is keyed by that URL here.  The summary counters (`checked`/`updated`)
are not modelled; the claims are about job fields and audit rows. -/

/-- `CI_UNKNOWN_MAX_ATTEMPTS` (check_status.py line 28). -/
def CI_UNKNOWN_MAX_ATTEMPTS : Nat := 5

/-- The PR metadata `_fetch_github_pr_metadata` returns (check_status.py
lines 50-82). -/
structure PrMeta where
  state : String
  merged : Bool
  head_sha : String
  head_ref : String
  title : String
  author_login : String
deriving DecidableEq

/-- The all-unknown default metadata dict of check_status.py line 55 (also
returned on any fetch failure). -/
def unknownMeta : PrMeta :=
  { state := "unknown", merged := false, head_sha := "", head_ref := "",
    title := "", author_login := "" }

/-- The keys of a session's `structured_output` that the reconciler reads:
`pull_request` (reduced to its `url`, `""` when the `url` key is missing
from the dict), `ci_status`, and `changed_files`. -/
structure StructOut where
  pull_request : Option String
  ci_status : Option String
  changed_files : List String

/-- The outcome of `client.get_session` for the job's run id:
a payload, an authentication failure (which aborts the sync loop), or
another exception (swallowed; the job proceeds with an empty status
dict). -/
inductive SessionResult where
  | ok (status_enum : String) (structured : Option StructOut)
  | errAuth
  | errOther

/-- The external world a single reconciler pass observes. -/
structure SyncWorld where
  client_present : Bool
  session : SessionResult
  pr_meta : String → PrMeta
  ci_status : String → Bool × String
  pr_changed_files : String → List String
  replacement_pr : String → Option String
  replacement_repo_pr : String → Option String

/-- The `remediation_jobs` columns the reconciler reads and writes. -/
structure SyncJob where
  status : String
  pr_url : Option String
  error_summary : Option String
  devin_run_id : Option String
  target_repo : String
deriving DecidableEq

/-- The `AuditLog.detail.contains("CI status unknown")` filter of
check_status.py lines 416-419 (SQL `LIKE`; a NULL detail never matches). -/
def ciUnknownDetail (r : AuditRow) : Bool :=
  match r.detail with
  | some d => containsSub "CI status unknown" d
  | none => false

/-- The body of the `for job in jobs:` loop of `sync_job_statuses`
(check_status.py lines 307-548) for one selected job.  Returns the updated
job row and the audit rows appended during this pass.  A job that the
select of lines 289-294 would not return (neither a run id nor a PR URL)
is returned unchanged. -/
def sync_one_job (g : Guardrails) (w : SyncWorld) (audit : List AuditRow)
    (job : SyncJob) : SyncJob × List AuditRow :=
  if job.devin_run_id.isNone && job.pr_url.isNone then (job, [])
  else if job.devin_run_id.isSome && w.client_present &&
      (match w.session with | .errAuth => true | _ => false) then
    -- an authentication failure breaks out of the loop before this job
    -- is processed (lines 313-316)
    (job, [])
  else
    let polled : Option (String × Option StructOut) :=
      if job.devin_run_id.isSome && w.client_present then
        match w.session with
        | .ok se so => some (se, so)
        | _ => none
      else none
    let devin_status := (polled.map (·.1)).getD ""
    let structured : Option StructOut := polled.bind (·.2)
    -- candidate PR attachment from structured_output (lines 326-343)
    let candidate_pr_url : String :=
      match structured with
      | some so => (so.pull_request).getD ""
      | none => ""
    let prInfoPresent : Bool :=
      match structured with
      | some so => so.pull_request.isSome
      | none => false
    let candidate_pr_metadata :=
      if prInfoPresent then w.pr_meta candidate_pr_url else unknownMeta
    let job1 :=
      if prInfoPresent then
        let attach := !(strIsEmpty candidate_pr_url) &&
          !(candidate_pr_metadata.state == "closed" &&
            !candidate_pr_metadata.merged)
        let next_pr := if attach then some candidate_pr_url else none
        if job.pr_url != next_pr then { job with pr_url := next_pr } else job
      else job
    -- promotion to pr_opened while the agent is still working (lines 345-355)
    let (job1, rows1) :=
      if structured.isSome && prTruthy job1.pr_url &&
          !(job1.status == "pr_opened" || job1.status == "green") &&
          !(devin_status == "stopped" || devin_status == "blocked") then
        ({ job1 with status := "pr_opened", error_summary := none },
         [log_transition (some job1.status) "pr_opened"
           (some ("PR: " ++ (job1.pr_url.getD "")))])
      else (job1, ([] : List AuditRow))
    -- terminal-agent handling (lines 357-543)
    if !(devin_status == "blocked" || devin_status == "stopped" ||
        (strIsEmpty devin_status && !w.client_present)) then
      (job1, rows1)
    else
      let pr_state_url : String :=
        if !(strIsEmpty candidate_pr_url) then candidate_pr_url
        else job1.pr_url.getD ""
      let pr_state_metadata :=
        if !(strIsEmpty candidate_pr_url) then candidate_pr_metadata
        else if !(strIsEmpty pr_state_url) then w.pr_meta pr_state_url
        else unknownMeta
      -- replacement search for a closed-unmerged PR (lines 366-379)
      let (job2, pr_state_url, pr_state_metadata) :=
        if !(strIsEmpty pr_state_url) && pr_state_metadata.state == "closed" &&
            !pr_state_metadata.merged then
          match w.replacement_pr pr_state_url with
          | some repl =>
            (if job1.pr_url != some repl then { job1 with pr_url := some repl }
             else job1,
             repl, w.pr_meta repl)
          | none => (job1, pr_state_url, pr_state_metadata)
        else (job1, pr_state_url, pr_state_metadata)
      if !(strIsEmpty pr_state_url) && pr_state_metadata.state == "closed" &&
          !pr_state_metadata.merged then
        -- still closed without merge (lines 381-403)
        if job2.status != "needs_human" ||
            job2.error_summary != some "PR closed without merge" ||
            job2.pr_url.isSome then
          ({ job2 with
              status := "needs_human"
              error_summary := some "PR closed without merge"
              pr_url := none },
           rows1 ++ [log_transition (some job2.status) "needs_human"
             (some ("PR closed without merge: " ++ pr_state_url))])
        else (job2, rows1)
      else if prTruthy job2.pr_url then
        -- CI evaluation for the attached PR (lines 405-523)
        let prUrl := job2.pr_url.getD ""
        let ghci := w.ci_status prUrl
        let (ci_passed, ci_status) :=
          if ghci.2 == "unknown" then
            let cs :=
              match structured with
              | some so => so.ci_status.getD "unknown"
              | none => "unknown"
            (cs == "passed" || cs == "success", cs)
          else ghci
        if g.ci_required && !ci_passed then
          if ci_status == "unknown" then
            let ci_unknown_count :=
              ((audit ++ rows1).filter ciUnknownDetail).length
            if CI_UNKNOWN_MAX_ATTEMPTS ≤ ci_unknown_count then
              let msg := "CI status unknown after " ++
                toString CI_UNKNOWN_MAX_ATTEMPTS ++
                " checks — failing closed"
              if job2.status != "ci_failed" ||
                  job2.error_summary != some msg then
                ({ job2 with status := "ci_failed"
                             error_summary := some msg },
                 rows1 ++ [log_transition (some job2.status) "ci_failed"
                   (some (msg ++ ": " ++ prUrl))])
              else (job2, rows1)
            else
              if job2.status != "pr_opened" then
                ({ job2 with status := "pr_opened", error_summary := none },
                 rows1 ++ [log_transition (some job2.status) "pr_opened"
                   (some ("CI status unknown, holding at PR_OPENED (attempt "
                     ++ toString (ci_unknown_count + 1) ++ "/" ++
                     toString CI_UNKNOWN_MAX_ATTEMPTS ++ "): " ++ prUrl))])
              else (job2, rows1)
          else
            let msg := "CI status: " ++ ci_status
            if job2.status != "ci_failed" || job2.error_summary != some msg then
              ({ job2 with status := "ci_failed"
                           error_summary := some msg },
               rows1 ++ [log_transition (some job2.status) "ci_failed"
                 (some ("PR exists but CI failed (" ++ ci_status ++ "): " ++
                   prUrl))])
            else (job2, rows1)
        else
          -- CI passed or not required: post-execution path validation,
          -- then green (lines 477-523)
          let files0 :=
            match structured with
            | some so => so.changed_files
            | none => []
          let pr_changed_files :=
            if files0.isEmpty && prTruthy job2.pr_url then
              w.pr_changed_files prUrl
            else files0
          let greenStep : SyncJob × List AuditRow :=
            let merge_reason := (g.check_can_merge ci_passed).2
            let detail := "PR: " ++ prUrl ++ " | merge: " ++ merge_reason
            if job2.status != "green" || job2.error_summary.isSome then
              ({ job2 with status := "green", error_summary := none },
               rows1 ++ [log_transition (some job2.status) "green"
                 (some detail)])
            else (job2, rows1)
          if !pr_changed_files.isEmpty then
            let path_violations := g.validate_paths pr_changed_files
            if !path_violations.isEmpty then
              let msg := "PR touches protected paths: " ++
                String.intercalate "; " path_violations
              if job2.status != "needs_human" ||
                  job2.error_summary != some msg then
                ({ job2 with status := "needs_human"
                             error_summary := some msg },
                 rows1 ++ [log_transition (some job2.status) "needs_human"
                   (some ("Post-execution path violation: " ++
                     String.intercalate "; " path_violations))])
              else (job2, rows1)
            else greenStep
          else if !g.protected_paths.isEmpty then
            let msg := "Cannot verify PR changed files against protected paths"
            if job2.status != "needs_human" ||
                job2.error_summary != some msg then
              ({ job2 with status := "needs_human"
                           error_summary := some msg },
               rows1 ++ [log_transition (some job2.status) "needs_human"
                 (some "Path validation fail-closed: changed files unavailable")])
            else (job2, rows1)
          else greenStep
      else
        -- no PR on the job: discovery, else needs_human (lines 524-543)
        let repl :=
          if !(strIsEmpty job2.target_repo) then
            w.replacement_repo_pr job2.target_repo
          else none
        match repl with
        | some r =>
          ({ job2 with pr_url := some r
                       status := "pr_opened"
                       error_summary := none },
           rows1 ++ [log_transition (some job2.status) "pr_opened"
             (some ("Found PR: " ++ r))])
        | none =>
          let msg := "Devin " ++ devin_status ++ " without PR"
          if job2.status != "needs_human" ||
              job2.error_summary != some msg then
            ({ job2 with status := "needs_human"
                         error_summary := some msg },
             rows1 ++ [log_transition (some job2.status) "needs_human"
               (some msg)])
          else (job2, rows1)

/-- Successive reconciler passes against a fixed external world: each pass
appends its audit rows to the log the next pass sees. -/
def sync_iterate (g : Guardrails) (w : SyncWorld) :
    Nat → SyncJob × List AuditRow → SyncJob × List AuditRow
  | 0, s => s
  | n + 1, (job, audit) =>
    let (job', rows) := sync_one_job g w audit job
    sync_iterate g w n (job', audit ++ rows)

/-! ## The snapshot-advance gate of `propagate/__main__.py` -/

/-- The decision of `__main__.py` lines 631-660: whether the orchestrator
stores the new `ContractSnapshot` after the dispatch step, as a function of
the mode flags and the statuses of the change's remediation jobs re-read
from the database.  The snapshot is stored exactly when this is true. -/
def snapshot_should_advance (dry_run no_wait : Bool)
    (job_statuses : List String) : Bool :=
  if dry_run then false
  else if no_wait then false
  else if !job_statuses.isEmpty then
    (job_statuses.filter
      (fun s => s == "ci_failed" || s == "needs_human")).isEmpty
  else true

/-! ## Concrete scenario inputs used by the claim theorems -/

/-- A self-referential schema pointer: `{"$ref": "#/components/schemas/A"}`. -/
def refA : Sch := .mk (some "#/components/schemas/A") none [] [] none []

/-- The schema `A`: an object whose `self` property refers back to `A`. -/
def schA : Sch := .mk none (some "object") [("self", refA)] [] none []

/-- A `POST` operation whose JSON request body is the cyclic schema. -/
def cycOp : Operation :=
  { parameters := []
    requestBody := some [("application/json", some refA)]
    security := []
    responses := [] }

/-- A contract whose request-body schema is the cyclic `A`: a document on
which the differ's nested recursion never returns. -/
def cycContract : Contract :=
  { paths := [("/p", [("post", cycOp)])]
    componentsSchemas := [("A", schA)] }

/-- The bundle of spec scenario 5 / `tests/test_dispatcher.py`: client
paths under the protected `infra/` prefix. -/
def infraBundle : RepoFixBundle :=
  { target_repo := "org/billing-service"
    target_service := "billing-service"
    change_summary := "Test change"
    breaking_changes := []
    affected_routes := ["POST /api/v1/sessions"]
    call_count_7d := 42
    client_paths := ["infra/terraform/main.tf"]
    test_paths := ["tests/test_client.py"]
    frontend_paths := []
    prompt := "Fix the breaking change"
    bundle_hash := "abcd1234abcd1234" }

/-- A dispatch world in which the agent accepts the session and reports
`stopped` with a PR on the first poll. -/
def okDispatchWorld : DispatchWorld :=
  { create_result := .ok "devin_test_001"
    polls := fun _ =>
      .payload "stopped"
        (some (some "https://github.com/org/billing-service/pull/7")) }

/-- The reconciler world of claim C7: the agent session is `stopped` and
reports the PR; GitHub says the PR is open and its CI status is unknown;
the agent's self-reported CI status is also unknown. -/
def ciUnknownWorld : SyncWorld :=
  { client_present := true
    session := .ok "stopped" (some
      { pull_request := some "https://github.com/org/test/pull/1"
        ci_status := some "unknown"
        changed_files := [] })
    pr_meta := fun _ => ⟨"open", false, "abc123", "fix-branch", "fix", "devin"⟩
    ci_status := fun _ => (false, "unknown")
    pr_changed_files := fun _ => []
    replacement_pr := fun _ => none
    replacement_repo_pr := fun _ => none }

/-- The job of claim C7: held at `pr_opened` with the PR attached. -/
def ciUnknownJob : SyncJob :=
  { status := "pr_opened"
    pr_url := some "https://github.com/org/test/pull/1"
    error_summary := none
    devin_run_id := some "devin-session-1"
    target_repo := "https://github.com/org/test" }

/-- The reconciler world of claim C8: the agent session is `stopped` with
no structured output; GitHub reports the job's PR closed and unmerged; no
replacement PR exists anywhere. -/
def closedPrWorld : SyncWorld :=
  { client_present := true
    session := .ok "stopped" none
    pr_meta := fun _ => ⟨"closed", false, "abc123", "fix-branch", "fix", "devin"⟩
    ci_status := fun _ => (false, "unknown")
    pr_changed_files := fun _ => []
    replacement_pr := fun _ => none
    replacement_repo_pr := fun _ => none }

/-- The job of claim C8 before the reconciler runs. -/
def closedPrJob : SyncJob :=
  { status := "pr_opened"
    pr_url := some "https://github.com/org/repo/pull/55"
    error_summary := none
    devin_run_id := some "devin-session-2"
    target_repo := "https://github.com/org/repo" }

/-- A small acyclic contract used to witness the identity property of the
differ: one operation with a required query parameter, a JSON request body
with a nested object and an enum field, a security requirement, and a JSON
response. -/
def sampleContract : Contract :=
  { paths := [("/api/v1/sessions",
      [("post",
        { parameters :=
            [{ name := some "team", inLoc := some "query", required := true,
               schema := some (.mk none (some "string") [] [] none []) }]
          requestBody := some [("application/json",
            some (.mk (some "#/components/schemas/SessionCreate") none [] []
              none []))]
          security := [[("bearerAuth", [])]]
          responses := [("200",
            some (.mk none (some "object")
              [("session_id", .mk none (some "string") [] [] none [])]
              [] none []))] })])]
    componentsSchemas :=
      [("SessionCreate",
        .mk none (some "object")
          [("team_id", .mk none (some "string") [] [] none []),
           ("priority", .mk none (some "string") [] [] none ["low", "high"]),
           ("meta", .mk none (some "object")
             [("tag", .mk none (some "string") [] [] none [])] [] none [])]
          ["team_id"] none [])] }


/-! ## Helper lemmas

Facts about the embedding shared by several claim proofs: self-comparison
collapses (`l.filter (fun k => !(l.contains k)) = []`, `a != a = false`),
accumulator-preservation of the differ's monadic folds, the divergence of
the nested recursion on the cyclic contract, and the fixpoint behaviour of
the reconciler. -/


theorem filterNotSelf {α : Type} [BEq α] [LawfulBEq α] (l : List α) :
    l.filter (fun k => !(l.contains k)) = [] := by
  rw [List.filter_eq_nil_iff]
  intro a ha
  simp [List.contains, List.elem_iff, ha]

theorem foldlM_self_acc {α β : Type} {l : List α}
    {f : List β → α → Option (List β)}
    (hf : ∀ acc a, a ∈ l → f acc a = none ∨ f acc a = some acc) :
    ∀ acc, l.foldlM f acc = none ∨ l.foldlM f acc = some acc := by
  induction l with
  | nil => intro acc; right; rfl
  | cons x xs ih =>
    intro acc
    rw [List.foldlM_cons]
    rcases hf acc x (List.mem_cons_self _ _) with h | h
    · rw [h]; left; rfl
    · rw [h]
      exact ih (fun acc a ha => hf acc a (List.mem_cons_of_mem _ ha)) acc

theorem nested_removed_self (d : List (String × Sch)) (p m fp : String) :
    nested_removed_diffs d d p m fp = [] := by
  simp [nested_removed_diffs, filterNotSelf]

theorem nested_added_self (d : List (String × Sch)) (p m fp : String) :
    nested_added_diffs d d p m fp = [] := by
  simp [nested_added_diffs, filterNotSelf]

theorem nested_type_diff_self (p m fp : String) (o : Sch) :
    nested_type_diff p m fp o o = [] := by
  simp [nested_type_diff]

theorem nested_child_step_self
    (recur : Sch → Sch → String → Option (List ContractDiff))
    (sp : Contract) (sub : List (String × Sch)) (p m fp : String)
    (hrec : ∀ a fp', recur a a fp' = none ∨ recur a a fp' = some [])
    (acc : List ContractDiff) (k : String) :
    nested_child_step recur sp sp sub sub p m fp acc k = none ∨
    nested_child_step recur sp sp sub sub p m fp acc k = some acc := by
  simp only [nested_child_step, nested_type_diff_self]
  split
  · rcases hrec ((dictGet sub k).getD emptySch) (fp ++ "." ++ k) with h | h <;>
      rw [h]
    · left; rfl
    · right; simp
  · right; simp

theorem nested_object_part_self
    (recur : Sch → Sch → String → Option (List ContractDiff))
    (sp : Contract) (r : Sch) (p m fp : String)
    (hrec : ∀ a fp', recur a a fp' = none ∨ recur a a fp' = some []) :
    nested_object_part recur sp sp r r p m fp = none ∨
    nested_object_part recur sp sp r r p m fp = some [] := by
  simp only [nested_object_part, nested_removed_self, nested_added_self,
    List.append_nil]
  split
  · exact foldlM_self_acc
      (fun acc a _ => nested_child_step_self recur sp r.props p m fp hrec acc a)
      []
  · right; rfl

theorem array_type_diff_self (p m fp : String) (t : Option String) :
    array_type_diff p m fp t t = [] := by
  simp [array_type_diff]

theorem nested_array_part_self
    (recur : Sch → Sch → String → Option (List ContractDiff))
    (sp : Contract) (r : Sch) (p m fp : String)
    (hrec : ∀ a fp', recur a a fp' = none ∨ recur a a fp' = some []) :
    nested_array_part recur sp sp r r p m fp = none ∨
    nested_array_part recur sp sp r r p m fp = some [] := by
  simp only [nested_array_part, array_type_diff_self]
  split
  · split
    · rcases hrec (r.items.getD emptySch) (fp ++ ".items") with h | h <;> rw [h]
      · left; rfl
      · right; rfl
    · right; rfl
  · right; rfl

theorem diff_nested_self :
    ∀ (fuel : Nat) (sp : Contract) (s : Sch) (p m fp : String),
      diff_nested fuel sp sp s s p m fp = none ∨
      diff_nested fuel sp sp s s p m fp = some [] := by
  intro fuel
  induction fuel with
  | zero => intro sp s p m fp; left; rfl
  | succ n ih =>
    intro sp s p m fp
    simp only [diff_nested]
    rcases nested_object_part_self
        (fun a b fp' => diff_nested n sp sp a b p m fp') sp
        (resolve_schema sp s) p m fp (fun a fp' => ih sp a p m fp')
      with h | h <;> rw [h]
    · left; rfl
    · rcases nested_array_part_self
          (fun a b fp' => diff_nested n sp sp a b p m fp') sp
          (resolve_schema sp s) p m fp (fun a fp' => ih sp a p m fp')
        with h2 | h2 <;> rw [h2]
      · left; rfl
      · right; rfl

theorem diff_params_self (p m : String) (op : Operation) :
    diff_params p m op op = [] := by
  simp only [diff_params, filterNotSelf, List.filterMap_nil, List.nil_append,
    List.append_nil]
  rw [List.filterMap_eq_nil_iff]
  intro key _
  cases h : pdictGet (mkParamDict op.parameters) key with
  | none => rfl
  | some v => simp [h]

theorem diff_content_types_self (p m : String) (op : Operation) :
    diff_content_types p m op op = [] := by
  simp [diff_content_types]

theorem diff_security_self (p m : String) (op : Operation) :
    diff_security p m op op = [] := by
  simp [diff_security]

theorem field_type_diff_self (p m fp : String) (s : Sch) :
    field_type_diff p m fp s s = [] := by
  simp [field_type_diff]

theorem enum_removed_diff_self (p m fp : String) (s : Sch) :
    enum_removed_diff p m fp s s = [] := by
  simp [enum_removed_diff, filterNotSelf]

theorem required_field_diffs_self (props : List (String × Sch))
    (req : List String) (p m : String) :
    required_field_diffs props props req req p m = [] := by
  simp [required_field_diffs, filterNotSelf]

theorem removed_field_diffs_self (props : List (String × Sch))
    (p m base : String) :
    removed_field_diffs props props p m base = [] := by
  simp [removed_field_diffs, filterNotSelf]

theorem request_field_step_self (fuel : Nat) (sp : Contract)
    (props : List (String × Sch)) (p m : String)
    (acc : List ContractDiff) (f : String) :
    request_field_step fuel sp sp props props p m acc f = none ∨
    request_field_step fuel sp sp props props p m acc f = some acc := by
  simp only [request_field_step, field_type_diff_self, enum_removed_diff_self]
  rcases diff_nested_self fuel sp ((dictGet props f).getD emptySch) p m
      ("request.body." ++ f) with h | h <;> rw [h]
  · left; rfl
  · right; simp

theorem diff_request_body_self (fuel : Nat) (sp : Contract) (p m : String)
    (op : Operation) :
    diff_request_body fuel sp sp p m op op = none ∨
    diff_request_body fuel sp sp p m op op = some [] := by
  simp only [diff_request_body, required_field_diffs_self,
    removed_field_diffs_self, List.append_nil, List.nil_append]
  exact foldlM_self_acc
    (fun acc a _ => request_field_step_self fuel sp _ p m acc a) []

theorem response_structure_diffs_self (props : List (String × Sch))
    (p m status : String) :
    response_structure_diffs props props p m status = [] := by
  simp [response_structure_diffs, filterNotSelf]

theorem response_field_step_self (fuel : Nat) (sp : Contract)
    (props : List (String × Sch)) (p m status : String)
    (acc : List ContractDiff) (f : String) :
    response_field_step fuel sp sp props props p m status acc f = none ∨
    response_field_step fuel sp sp props props p m status acc f = some acc := by
  simp only [response_field_step, field_type_diff_self, enum_removed_diff_self]
  rcases diff_nested_self fuel sp ((dictGet props f).getD emptySch) p m
      ("response." ++ status ++ "." ++ f) with h | h <;> rw [h]
  · left; rfl
  · right; simp

theorem response_status_step_self (fuel : Nat) (sp : Contract)
    (p m : String) (op : Operation) (accS : List ContractDiff)
    (status : String) :
    response_status_step fuel sp sp p m op op accS status = none ∨
    response_status_step fuel sp sp p m op op accS status = some accS := by
  simp only [response_status_step, removed_field_diffs_self,
    response_structure_diffs_self, List.append_nil]
  exact foldlM_self_acc
    (fun acc a _ => response_field_step_self fuel sp _ p m status acc a) accS

theorem diff_responses_self (fuel : Nat) (sp : Contract) (p m : String)
    (op : Operation) :
    diff_responses fuel sp sp p m op op = none ∨
    diff_responses fuel sp sp p m op op = some [] := by
  simp only [diff_responses]
  exact foldlM_self_acc
    (fun acc a _ => response_status_step_self fuel sp p m op acc a) []

theorem diff_method_self (fuel : Nat) (sp : Contract) (p m : String)
    (op : Operation) :
    diff_method fuel sp sp p m op op = none ∨
    diff_method fuel sp sp p m op op = some [] := by
  simp only [diff_method, diff_params_self, diff_content_types_self,
    diff_security_self, Bool.or_self]
  have hguard : (!opTruthy op && opTruthy op) = false := by
    cases opTruthy op <;> rfl
  have hguard2 : (opTruthy op && !opTruthy op) = false := by
    cases opTruthy op <;> rfl
  simp only [hguard, hguard2, Bool.false_eq_true, if_false]
  cases hrb : op.requestBody.isSome with
  | false =>
    simp only [hrb, if_neg Bool.false_ne_true]
    rcases diff_responses_self fuel sp p m op with h | h <;> rw [h]
    · left; rfl
    · right; rfl
  | true =>
    simp only [hrb, if_pos rfl]
    rcases diff_request_body_self fuel sp p m op with h | h <;> rw [h]
    · left; rfl
    · rcases diff_responses_self fuel sp p m op with h2 | h2 <;> rw [h2]
      · left; rfl
      · right; rfl

theorem method_step_self (fuel : Nat) (sp : Contract) (p : String)
    (item : List (String × Operation)) (accM : List ContractDiff)
    (m : String) :
    method_step fuel sp sp p item item accM m = none ∨
    method_step fuel sp sp p item item accM m = some accM := by
  simp only [method_step]
  rcases diff_method_self fuel sp p m ((dictGet item m).getD emptyOperation)
    with h | h <;> rw [h]
  · left; rfl
  · right; simp

theorem path_step_self (fuel : Nat) (sp : Contract)
    (accP : List ContractDiff) (p : String) :
    path_step fuel sp sp accP p = none ∨
    path_step fuel sp sp accP p = some accP := by
  simp only [path_step]
  exact foldlM_self_acc
    (fun acc a _ => method_step_self fuel sp p _ acc a) accP

theorem diff_contracts_self (fuel : Nat) (sp : Contract) :
    diff_contracts fuel sp sp = none ∨ diff_contracts fuel sp sp = some [] := by
  simp only [diff_contracts]
  exact foldlM_self_acc (fun acc a _ => path_step_self fuel sp acc a) []

theorem diff_contracts_self_empty :
    ∀ (old_spec : Contract) (fuel : Nat) (l : List ContractDiff),
      diff_contracts fuel old_spec old_spec = some l → l = [] := by
  intro sp fuel l h
  rcases diff_contracts_self fuel sp with h2 | h2 <;> rw [h2] at h
  · exact absurd h (by simp)
  · exact (Option.some_inj.mp h).symm

theorem diff_nested_refA_none :
    ∀ (fuel : Nat) (p m fp : String),
      diff_nested fuel cycContract cycContract refA refA p m fp = none := by
  intro fuel
  induction fuel with
  | zero => intro p m fp; rfl
  | succ n ih =>
    intro p m fp
    have hres : resolve_schema cycContract refA = schA := rfl
    simp only [diff_nested, hres]
    have hchild :
        nested_child_step
          (fun a b fp' => diff_nested n cycContract cycContract a b p m fp')
          cycContract cycContract schA.props schA.props p m fp [] "self"
          = none := by
      have hget : (dictGet schA.props "self").getD emptySch = refA := rfl
      simp only [nested_child_step, hget]
      have hg : ((resolve_schema cycContract refA).ty == some "object" ||
          (resolve_schema cycContract refA).ty == some "array" ||
          (resolve_schema cycContract refA).ty == some "object" ||
          (resolve_schema cycContract refA).ty == some "array") = true := rfl
      simp only [hg, if_true, ih]
      rfl
    have hop : nested_object_part
        (fun a b fp' => diff_nested n cycContract cycContract a b p m fp')
        cycContract cycContract schA schA p m fp = none := by
      simp only [nested_object_part]
      have hg : (schA.ty == some "object" && schA.ty == some "object")
          = true := rfl
      simp only [hg, if_true]
      have hcommon : common_keys schA.props schA.props = ["self"] := rfl
      have hrem : nested_removed_diffs schA.props schA.props p m fp = [] := rfl
      have hadd : nested_added_diffs schA.props schA.props p m fp = [] := rfl
      rw [hcommon, hrem, hadd, List.nil_append, List.foldlM_cons, hchild]
      rfl
    rw [hop]
    rfl

theorem diff_request_body_cyc_none :
    ∀ (fuel : Nat),
      diff_request_body fuel cycContract cycContract "/p" "post" cycOp cycOp
        = none := by
  intro fuel
  have hschema : jsonSchemaOf (cycOp.requestBody.getD []) = refA := rfl
  have hprops : get_schema_properties cycContract refA = [("self", refA)] := rfl
  have hcommon : common_keys [("self", refA)] [("self", refA)] = ["self"] := rfl
  have hreq : required_field_diffs [("self", refA)] [("self", refA)]
      (get_required_fields cycContract refA)
      (get_required_fields cycContract refA) "/p" "post" = [] := rfl
  have hrem : removed_field_diffs [("self", refA)] [("self", refA)]
      "/p" "post" "request.body." = [] := rfl
  have hstep : request_field_step fuel cycContract cycContract
      [("self", refA)] [("self", refA)] "/p" "post" [] "self" = none := by
    have hget : (dictGet [("self", refA)] "self").getD emptySch = refA := rfl
    simp only [request_field_step, hget, diff_nested_refA_none]
    rfl
  simp only [diff_request_body, hschema, hprops, hcommon, hreq, hrem,
    List.nil_append, List.foldlM_cons, hstep]
  rfl

theorem diff_method_cyc_none :
    ∀ (fuel : Nat),
      diff_method fuel cycContract cycContract "/p" "post" cycOp cycOp
        = none := by
  intro fuel
  have hguard : (!opTruthy cycOp && opTruthy cycOp) = false := rfl
  have hguard2 : (opTruthy cycOp && !opTruthy cycOp) = false := rfl
  have hrb : (cycOp.requestBody.isSome || cycOp.requestBody.isSome) = true := rfl
  simp only [diff_method, hguard, hguard2, Bool.false_eq_true, if_false, hrb,
    if_true, diff_request_body_cyc_none]
  rfl

theorem diff_contracts_cyc_none :
    ∀ (fuel : Nat), diff_contracts fuel cycContract cycContract = none := by
  intro fuel
  have hpaths : sortedSet (dictKeys cycContract.paths ++
      dictKeys cycContract.paths) = ["/p"] := rfl
  have hstep : path_step fuel cycContract cycContract [] "/p" = none := by
    have hitem : (dictGet cycContract.paths "/p").getD [] =
        [("post", cycOp)] := rfl
    have hmethods : sortStrings
        ((dedupKeepFirst (dictKeys [("post", cycOp)] ++
          dictKeys [("post", cycOp)])).filter
          (fun m => httpMethods.contains m)) = ["post"] := rfl
    have hm : method_step fuel cycContract cycContract "/p"
        [("post", cycOp)] [("post", cycOp)] [] "post" = none := by
      have hop : (dictGet [("post", cycOp)] "post").getD emptyOperation
          = cycOp := rfl
      simp only [method_step, hop, diff_method_cyc_none]
      rfl
    simp only [path_step, hitem, hmethods, List.foldlM_cons, hm]
    rfl
  simp only [diff_contracts, hpaths, List.foldlM_cons, hstep]
  rfl

/-- A job state on which one reconciler pass is a no-op stays unchanged
under any number of successive passes. -/
theorem sync_fixpoint_iterate
    {g : Guardrails} {w : SyncWorld} {job : SyncJob}
    (hfix : sync_one_job g w [] job = (job, [])) :
    ∀ n : Nat, sync_iterate g w n (job, []) = (job, []) := by
  intro n
  induction n with
  | zero => rfl
  | succ k ih =>
    simp only [sync_iterate, hfix]
    exact ih

/-! ## Claim theorems -/

/-- Claim C1: the spec says `topological_sort()` puts the root services in
wave 0 and every dependency in an earlier wave, with
`a→root, b→root, c→a, d→a,b, e→c,d` yielding
`[[root], [a,b], [c,d], [e]]`.  The code counts dependents (not
dependencies) in `in_degree`, so it returns the waves in exactly the
reverse order: `[[e], [c,d], [a,b], [root]]`, contradicting the
function's own docstring example and `tests/test_dependency_graph.py`. -/
theorem claim_C1_wave_order_reversed :
    topological_sort exampleGraphC1 =
      .ok [["e"], ["c", "d"], ["a", "b"], ["root"]] ∧
    ([["e"], ["c", "d"], ["a", "b"], ["root"]] : List (List String)) ≠
      [["root"], ["a", "b"], ["c", "d"], ["e"]] :=
  ⟨by rfl, by decide⟩

/-- Claim C2: the spec says a bundle whose paths violate
`guardrails.validate_paths` is put directly into `needs_human` and the
agent's create-session endpoint is not called.  `dispatch_one` in
`dispatcher.py` never calls `validate_paths`: for the spec's own
guardrail-block scenario (client path `infra/terraform/main.tf` under the
default protected prefix `infra/`) the job is created `queued`, the
create-session call is made, and the job ends `green` with no error
summary. -/
theorem claim_C2_dispatch_skips_guardrails :
    defaultGuardrails.validate_paths
      (infraBundle.client_paths ++ infraBundle.test_paths ++
        infraBundle.frontend_paths) ≠ [] ∧
    (dispatch_one okDispatchWorld infraBundle 1).2.2.length = 1 ∧
    (dispatch_one okDispatchWorld infraBundle 1).1.status = "green" ∧
    (dispatch_one okDispatchWorld infraBundle 1).1.error_summary = none :=
  ⟨by decide, by rfl, by rfl, by rfl⟩

/-- Claim C3, counterexample: the snapshot-advance gate of `__main__.py`
only rejects `ci_failed` and `needs_human`; with a job still `running`
(reachable because `_wait_for_wave_completion`'s timeout result is
ignored), the gate still advances, so "advance implies every job green" is
false. -/
theorem claim_C3_counterexample :
    snapshot_should_advance false false ["running"] = true ∧
    "running" ≠ "green" :=
  ⟨by rfl, by decide⟩

/-- Claim C3, amended: whenever the orchestrator advances the baseline
after dispatching jobs, it is not in dry-run or no-wait mode and no job of
the change is in `ci_failed` or `needs_human` (jobs may still be in
non-terminal statuses such as `running`). -/
theorem claim_C3_gate_excludes_unresolved_only :
    ∀ (dry_run no_wait : Bool) (statuses : List String),
      snapshot_should_advance dry_run no_wait statuses = true →
      dry_run = false ∧ no_wait = false ∧
        ∀ s ∈ statuses, s ≠ "ci_failed" ∧ s ≠ "needs_human" := by
  intro dry_run no_wait statuses h
  cases dry_run with
  | true => exact absurd h (by simp [snapshot_should_advance])
  | false =>
  cases no_wait with
  | true => exact absurd h (by simp [snapshot_should_advance])
  | false =>
  refine ⟨rfl, rfl, ?_⟩
  intro s hs
  cases hempty : statuses.isEmpty with
  | true =>
    rw [List.isEmpty_iff] at hempty
    subst hempty
    exact absurd hs (List.not_mem_nil s)
  | false =>
    simp only [snapshot_should_advance, hempty, Bool.not_false,
      Bool.false_eq_true, if_false, if_true, List.isEmpty_iff,
      List.filter_eq_nil_iff] at h
    have := h s hs
    constructor
    · intro hc; subst hc; simp at this
    · intro hc; subst hc; simp at this

/-- Claim C3, witness: the amended gate theorem applied to a concrete
advancing run with one `green` job. -/
theorem claim_C3_gate_witness :
    snapshot_should_advance false false ["green"] = true ∧
    (false = false ∧ false = false ∧
      ∀ s ∈ ["green"], s ≠ "ci_failed" ∧ s ≠ "needs_human") :=
  ⟨by rfl,
   claim_C3_gate_excludes_unresolved_only false false ["green"] (by rfl)⟩

/-- Claim C4, counterexample: the claim says `parameter_removed`,
`parameter_added_required`, `content_type_changed` and `security_changed`
are breaking kinds, but the code's `BREAKING_DIFF_TYPES` contains none of
them: a single `parameter_removed` diff classifies as non-breaking. -/
theorem claim_C4_counterexample :
    (classify_changes
      [{ path := "/test", method := "post", field := "parameter.query.q",
         old_value := .s "old", new_value := .null,
         diff_type := "parameter_removed" }]).is_breaking = false ∧
    ¬("parameter_removed" ∈ BREAKING_DIFF_TYPES) ∧
    ¬("content_type_changed" ∈ BREAKING_DIFF_TYPES) ∧
    ¬("security_changed" ∈ BREAKING_DIFF_TYPES) :=
  ⟨by rfl, by decide, by decide, by decide⟩

/-- Claim C4, amended: `classify_changes(D).is_breaking` is true exactly
when some diff of `D` has a kind in the code's `BREAKING_DIFF_TYPES`
(which excludes every parameter kind, `content_type_changed`,
`security_changed` and `operation_added`/`nested_field_added`). -/
theorem claim_C4_breaking_iff_code_set (diffs : List ContractDiff) :
    (classify_changes diffs).is_breaking = true ↔
      ∃ d ∈ diffs, d.diff_type ∈ BREAKING_DIFF_TYPES := by
  cases diffs with
  | nil => simp [classify_changes]
  | cons x xs =>
    simp only [classify_changes, List.isEmpty_cons, Bool.false_eq_true,
      if_false]
    simp [decide_eq_true_eq, List.length_pos, Ne, List.filter_eq_nil_iff,
      not_forall, List.contains, List.elem_iff]

/-- Claim C5: the spec says `create_session` is called with idempotency
key `"change-{change_id}-{bundle_hash}"` (and
`tests/test_dispatcher.py` asserts exactly that call).  The dispatcher
calls `client.create_session(bundle.prompt)` with the key argument left at
its `None` default, so the posted payload carries no idempotency key. -/
theorem claim_C5_no_idempotency_key :
    (dispatch_one okDispatchWorld infraBundle 1).2.2 =
      [create_session_payload infraBundle.prompt none] ∧
    (create_session_payload infraBundle.prompt none).idempotency_key
      = none ∧
    some ("change-1-" ++ infraBundle.bundle_hash) ≠ (none : Option String) :=
  ⟨by rfl, by rfl, by decide⟩

/-- Claim C6: the spec requires `diff_contracts` to terminate on every
document pair, including `$ref` cycles.  The code has no cycle detection
and no depth cap: on the self-referential schema `A` (its `self` property
referring back to `A`) the nested recursion needs more than any finite
stack depth, so at every fuel bound the comparison fails to return
(CPython raises `RecursionError`). -/
theorem claim_C6_differ_diverges_on_ref_cycle :
    ∀ fuel : Nat, diff_contracts fuel cycContract cycContract = none :=
  diff_contracts_cyc_none

/-- Claim C7: the spec says successive reconciler runs on a job whose CI
status stays unknown increment an attempt counter and fail closed to
`ci_failed` after 5 runs.  The code appends the counting audit row only on
a transition into `pr_opened`: a job already held at `pr_opened` is a
fixpoint of `sync_one_job`, so any number of successive runs leaves it at
`pr_opened` with no new audit rows and the fail-closed transition is never
reached. -/
theorem claim_C7_ci_unknown_held_forever :
    ∀ n : Nat,
      sync_iterate defaultGuardrails ciUnknownWorld n (ciUnknownJob, []) =
        (ciUnknownJob, []) ∧
      ciUnknownJob.status = "pr_opened" :=
  fun n => ⟨sync_fixpoint_iterate (by rfl) n, rfl⟩

/-- Claim C8: the reconciler is claimed idempotent when the external world
is unchanged.  After a first pass detaches a closed-unmerged PR (clearing
`pr_url`, setting `error_summary` to "PR closed without merge"), the second
pass takes the no-PR branch and rewrites `error_summary` to
"Devin stopped without PR", appending a fresh audit row: the second run is
not a no-op. -/
theorem claim_C8_reconciler_not_idempotent :
    (sync_one_job defaultGuardrails closedPrWorld [] closedPrJob).1.status
      = "needs_human" ∧
    (sync_one_job defaultGuardrails closedPrWorld [] closedPrJob).1.error_summary
      = some "PR closed without merge" ∧
    (sync_one_job defaultGuardrails closedPrWorld [] closedPrJob).2.length
      = 1 ∧
    (sync_one_job defaultGuardrails closedPrWorld
        ((sync_one_job defaultGuardrails closedPrWorld [] closedPrJob).2)
        ((sync_one_job defaultGuardrails closedPrWorld [] closedPrJob).1)).2
      = [log_transition (some "needs_human") "needs_human"
          (some "Devin stopped without PR")] ∧
    (sync_one_job defaultGuardrails closedPrWorld
        ((sync_one_job defaultGuardrails closedPrWorld [] closedPrJob).2)
        ((sync_one_job defaultGuardrails closedPrWorld [] closedPrJob).1)).1.error_summary
      ≠ (sync_one_job defaultGuardrails closedPrWorld [] closedPrJob).1.error_summary :=
  ⟨by rfl, by rfl, by rfl, by rfl, by decide⟩

/-- Claim C9, counterexample: for a document with a `$ref` cycle,
`diff_contracts(old, old)` does not return the empty list — it does not
return at all (here: fuel exhausted at stack depth 1000, and
`claim_C6_differ_diverges_on_ref_cycle`'s helper shows every depth). -/
theorem claim_C9_counterexample :
    diff_contracts 1000 cycContract cycContract = none :=
  diff_contracts_cyc_none 1000

/-- Claim C9, amended: whenever `diff_contracts(old, old)` returns (any
fuel at which the nested recursion completes), the result is the empty
list. -/
theorem claim_C9_identity_when_terminating :
    ∀ (old_spec : Contract) (fuel : Nat) (l : List ContractDiff),
      diff_contracts fuel old_spec old_spec = some l → l = [] := by
  intro sp fuel l h
  rcases diff_contracts_self fuel sp with h2 | h2 <;> rw [h2] at h
  · exact absurd h (by simp)
  · exact (Option.some_inj.mp h).symm

/-- Claim C9, witness: the amended theorem applied to the sample contract
(parameters, security, nested object, enum) at fuel 5, where the
comparison completes and returns `[]`. -/
theorem claim_C9_identity_witness :
    diff_contracts 5 sampleContract sampleContract =
      some ([] : List ContractDiff) ∧ ([] : List ContractDiff) = [] :=
  ⟨by rfl, claim_C9_identity_when_terminating sampleContract 5 [] (by rfl)⟩

/-- Claim C10: `load_service_map` returns `ServiceInfo` dataclass values,
while `build_dependency_graph_from_service_map` reads each entry with
dict-style `.get`, which raises `AttributeError` on a dataclass; the
orchestrator composes exactly these two.  Any non-empty service map makes
the composition raise, and only the empty map yields a graph, containing
just the `api-core` root. -/
theorem claim_C10_loaded_service_map_breaks_builder :
    ∀ (m : List (String × ServiceInfo)),
      (m ≠ [] → ∃ e, graph_from_loaded_service_map m = .error e) ∧
      (m = [] → graph_from_loaded_service_map m =
        .ok [("api-core", [])]) := by
  intro m
  cases m with
  | nil =>
    refine ⟨fun h => absurd rfl h, fun _ => rfl⟩
  | cons x xs =>
    refine ⟨fun _ => ?_, fun h => absurd h (by simp)⟩
    refine ⟨"AttributeError: ServiceInfo object has no attribute get", ?_⟩
    simp only [graph_from_loaded_service_map,
      build_dependency_graph_from_service_map, List.map_cons,
      List.foldlM_cons, pyGetDependsOn]
    rfl

/-- Claim C10, witness: the theorem applied to a one-service map (which
raises) and to the empty map (which yields the root-only graph). -/
theorem claim_C10_witness :
    (∃ e, graph_from_loaded_service_map
      [("billing-service",
        { repo := "https://github.com/org/billing-service",
          language := "python", client_paths := ["src/client.py"],
          test_paths := [], frontend_paths := [],
          depends_on := ["api-core"] })] = .error e) ∧
    graph_from_loaded_service_map [] = .ok [("api-core", [])] :=
  ⟨(claim_C10_loaded_service_map_breaks_builder
      [("billing-service",
        { repo := "https://github.com/org/billing-service",
          language := "python", client_paths := ["src/client.py"],
          test_paths := [], frontend_paths := [],
          depends_on := ["api-core"] })]).1 (by simp),
   (claim_C10_loaded_service_map_breaks_builder []).2 rfl⟩
